import Mathlib

/-!
Shallow embedding of the Revisit backend core: the auth middleware
(middleware/auth.js), the auth routes (routes/auth.js), the category routes
(routes/categories.js) and the schema created in database/init.js.
-/

namespace Revisit

/-! ## Auth guard (middleware/auth.js) -/

/-- The 401 message returned when `!token` holds after splitting the header. -/
def noTokenMessage : String := "No authentication token, authorization denied"

/-- The 401 message returned by the catch block of the middleware. -/
def invalidTokenMessage : String := "Token is not valid"

/-- Outcome of the auth middleware: a rejection response (status, message), or
the decoded claims attached to the request for the downstream handler. -/
inductive GuardResult (α : Type) where
  | reject (status : Nat) (message : String)
  | allow (claims : α)
  deriving DecidableEq, Repr

/-- Split a character list at every single space, keeping empty parts, the way
JS `split(' ')` does. -/
def splitChars : List Char → List (List Char)
  | [] => [[]]
  | c :: cs =>
    let r := splitChars cs
    if c = ' ' then [] :: r
    else
      match r with
      | [] => [[c]]
      | w :: ws => (c :: w) :: ws

/-- JS `header.split(' ')`: split on every single space, keeping empty parts. -/
def headerParts (h : String) : List String :=
  (splitChars h.toList).map (fun w => String.mk w)

/-- JS `header.split(' ')[1]`: `none` models the `undefined` an out-of-range
index yields. -/
def extractToken (h : String) : Option String := (headerParts h).get? 1

/-- middleware/auth.js. The `authorization` header is optional: when it is
absent, `.split` throws a TypeError which the catch block turns into the
invalid-token response. When the header is present, `split(' ')[1]` that is
`undefined` or the empty string is falsy and yields the no-token response;
otherwise `jwt.verify` is consulted (abstracted as `verify`, `none` modelling
any verification throw: malformed, bad signature, expired). -/
def authGuard {α : Type} (verify : String → Option α) (authHeader : Option String) :
    GuardResult α :=
  match authHeader with
  | none => GuardResult.reject 401 invalidTokenMessage
  | some h =>
    match extractToken h with
    | none => GuardResult.reject 401 noTokenMessage
    | some t =>
      if t == "" then GuardResult.reject 401 noTokenMessage
      else
        match verify t with
        | none => GuardResult.reject 401 invalidTokenMessage
        | some c => GuardResult.allow c

/-- A protected route: the guard runs first; the handler is invoked only when
the guard allows the request. -/
def protectedRoute {α β : Type} (verify : String → Option α) (handler : α → β)
    (authHeader : Option String) : Except (Nat × String) β :=
  match authGuard verify authHeader with
  | GuardResult.reject s m => Except.error (s, m)
  | GuardResult.allow c => Except.ok (handler c)

/-! ## Users table and auth routes (routes/auth.js) -/

/-- A row of the `users` table (database/init.js): the password column holds
the bcrypt hash. -/
structure User where
  id : Nat
  username : String
  email : String
  password : String
  deriving DecidableEq, Repr

/-- `db.get('SELECT * FROM users WHERE email = ?', email)`: first matching row
or `none`. -/
def findUserByEmail (users : List User) (email : String) : Option User :=
  users.find? (fun u => u.email == email)

/-- `db.get('SELECT * FROM users WHERE username = ?', username)`. -/
def findUserByUsername (users : List User) (username : String) : Option User :=
  users.find? (fun u => u.username == username)

/-- JS falsiness of an optional string request-body field: `undefined` and the
empty string are falsy. -/
def falsyField : Option String → Bool
  | none => true
  | some s => s == ""

/-- Result of POST /register: a status code and body message; on success the
body also carries `success: true`. -/
inductive RegisterResult where
  | failure (status : Nat) (message : String)
  | success (status : Nat) (message : String)
  deriving DecidableEq, Repr

/-- routes/auth.js POST /register. `hashFn` abstracts `bcrypt.hash` with the
generated salt. Returns the response together with the users table after the
request. -/
def register (hashFn : String → String) (users : List User) (nextId : Nat)
    (username email password : Option String) : RegisterResult × List User :=
  if falsyField username || falsyField email || falsyField password then
    (RegisterResult.failure 400 "Please enter all fields", users)
  else
    let un := username.getD ""
    let em := email.getD ""
    let pw := password.getD ""
    match findUserByEmail users em with
    | some _ => (RegisterResult.failure 400 "Email already in use", users)
    | none =>
      match findUserByUsername users un with
      | some _ => (RegisterResult.failure 400 "Username already taken", users)
      | none =>
        (RegisterResult.success 201 "Registration successful! Please log in.",
         users ++ [{ id := nextId, username := un, email := em, password := hashFn pw }])

/-- The claims `jwt.sign` embeds at login: id, username, and the request email. -/
structure TokenPayload where
  id : Nat
  username : String
  email : String
  deriving DecidableEq, Repr

/-- A signed token: payload, signing secret, and the fixed 1-hour expiry. -/
structure SignedToken where
  payload : TokenPayload
  secret : String
  expiresInSeconds : Nat
  deriving DecidableEq, Repr

/-- `jwt.sign(payload, process.env.JWT_SECRET, { expiresIn: '1h' })`. -/
def issueToken (secret : String) (p : TokenPayload) : SignedToken :=
  { payload := p, secret := secret, expiresInSeconds := 3600 }

/-- Result of POST /login: failure response, or the token with the public user
projection (id, username, email). -/
inductive LoginResult where
  | failure (status : Nat) (message : String)
  | success (token : SignedToken) (id : Nat) (username : String) (email : String)
  deriving DecidableEq, Repr

/-- routes/auth.js POST /login. `compare` abstracts `bcrypt.compare plaintext
storedHash`. -/
def login (compare : String → String → Bool) (secret : String) (users : List User)
    (email password : Option String) : LoginResult :=
  if falsyField email || falsyField password then
    LoginResult.failure 400 "Please enter all fields"
  else
    let e := email.getD ""
    let p := password.getD ""
    match findUserByEmail users e with
    | none => LoginResult.failure 400 "Invalid credentials"
    | some user =>
      if compare p user.password then
        LoginResult.success
          (issueToken secret { id := user.id, username := user.username, email := e })
          user.id user.username user.email
      else LoginResult.failure 400 "Invalid credentials"

/-! ## Schema (database/init.js) -/

/-- A column of a CREATE TABLE statement: its name and whether the schema
declares a uniqueness constraint on it (UNIQUE or PRIMARY KEY). -/
structure ColumnSpec where
  colName : String
  uniqueConstraint : Bool
  deriving DecidableEq, Repr

/-- database/init.js users table: id PRIMARY KEY, username TEXT UNIQUE NOT
NULL, email TEXT UNIQUE NOT NULL, password TEXT NOT NULL, created_at. -/
def usersTableColumns : List ColumnSpec :=
  [{ colName := "id", uniqueConstraint := true },
   { colName := "username", uniqueConstraint := true },
   { colName := "email", uniqueConstraint := true },
   { colName := "password", uniqueConstraint := false },
   { colName := "created_at", uniqueConstraint := false }]

/-- database/init.js categories table: id PRIMARY KEY, name TEXT NOT NULL (no
UNIQUE), item_count INTEGER DEFAULT 0, image TEXT, created_at, updated_at. -/
def categoriesTableColumns : List ColumnSpec :=
  [{ colName := "id", uniqueConstraint := true },
   { colName := "name", uniqueConstraint := false },
   { colName := "item_count", uniqueConstraint := false },
   { colName := "image", uniqueConstraint := false },
   { colName := "created_at", uniqueConstraint := false },
   { colName := "updated_at", uniqueConstraint := false }]

/-- Whether the schema enforces uniqueness on the named column. -/
def columnIsUnique (cols : List ColumnSpec) (n : String) : Bool :=
  match cols.find? (fun c => c.colName == n) with
  | some c => c.uniqueConstraint
  | none => false

/-! ## Categories table and routes (routes/categories.js) -/

/-- A row of the `categories` table. `item_count` is an Int: neither the
schema nor the routes constrain its sign. Timestamps are abstract instants. -/
structure Category where
  id : Nat
  name : String
  item_count : Int
  image : Option String
  created_at : Nat
  updated_at : Nat
  deriving DecidableEq, Repr

/-- The categories table plus the AUTOINCREMENT counter for the next id. -/
structure CatStore where
  rows : List Category
  nextId : Nat
  deriving DecidableEq, Repr

/-- `db.get('SELECT * FROM categories WHERE name = ?', name)`. -/
def findCategoryByName (st : CatStore) (n : String) : Option Category :=
  st.rows.find? (fun c => c.name == n)

/-- `db.get('SELECT * FROM categories WHERE id = ?', id)`. -/
def findCategoryById (st : CatStore) (id : Nat) : Option Category :=
  st.rows.find? (fun c => c.id == id)

/-- The database layer INSERT INTO categories (name, item_count, image): it
succeeds regardless of an existing row with the same name, since the schema
declares no UNIQUE constraint on name. -/
def rawInsertCategory (st : CatStore) (n : String) (ic : Int) (img : Option String)
    (now : Nat) : CatStore :=
  { rows := st.rows ++
      [{ id := st.nextId, name := n, item_count := ic, image := img,
         created_at := now, updated_at := now }],
    nextId := st.nextId + 1 }

/-- An uploaded file as multer presents it: mimetype, byte size, original name,
and the generated on-disk filename (fieldname-timestamp-random.ext). -/
structure UploadFile where
  mimetype : String
  size : Nat
  originalname : String
  storedFilename : String
  deriving DecidableEq, Repr

/-- routes/categories.js limits: `fileSize: 5 * 1024 * 1024`. -/
def fileSizeLimit : Nat := 5 * 1024 * 1024

/-- routes/categories.js fileFilter: accept only files whose mimetype starts
with `image/` (JS `mimetype.startsWith`, as a character-list prefix test). -/
def fileFilterAccepts (f : UploadFile) : Bool :=
  "image/".toList.isPrefixOf f.mimetype.toList

/-- The multer upload stage, which runs before the route handler: a present
file is checked by fileFilter and then against the fileSize limit; `some msg`
is the rejection the handler pipeline surfaces (the spec taxonomy classes both
rejections as ValidationError), `none` lets the request through. -/
def uploadStage (f : Option UploadFile) : Option String :=
  match f with
  | none => none
  | some f =>
    if !fileFilterAccepts f then some "Not an image! Please upload only images."
    else if fileSizeLimit < f.size then some "File too large"
    else none

/-- Combined mutable state a category request touches: the categories table and
the set of filenames present in the uploads directory. -/
structure CatState where
  store : CatStore
  files : List String
  deriving DecidableEq, Repr

/-- Result of a category route: an error response, an upload-stage rejection
(which occurs before the handler body runs), or a success value. -/
inductive RouteResult (α : Type) where
  | error (status : Nat) (message : String)
  | uploadRejected (message : String)
  | ok (value : α)
  deriving DecidableEq, Repr

/-- JS `name || category.name`: a falsy (absent or empty) request name keeps
the stored one. -/
def jsOrName (name : Option String) (old : String) : String :=
  match name with
  | some s => if s == "" then old else s
  | none => old

/-- JS `itemCount !== undefined ? itemCount : old` (also `itemCount || 0` at
creation, where old is 0 and a supplied value is kept). -/
def jsOrCount (itemCount : Option Int) (old : Int) : Int :=
  match itemCount with
  | some k => k
  | none => old

/-- JS `req.file ? req.file.filename : old`. -/
def jsOrImage (file : Option UploadFile) (old : Option String) : Option String :=
  match file with
  | some f => some f.storedFilename
  | none => old

/-- The uploads directory after the multer stage accepted the request: an
accepted file has been written; without a file nothing changes. -/
def filesAfterUpload (file : Option UploadFile) (files : List String) : List String :=
  match file with
  | some f => f.storedFilename :: files
  | none => files

/-- routes/categories.js POST /. The upload stage runs first; a rejected
upload never reaches the handler, so nothing is written. An accepted file is
written to the uploads directory by multer before the handler body runs. The
handler then validates the name, rejects a duplicate name, and inserts the row
with `itemCount || 0` (absent defaults to 0, any supplied value is stored
unchecked). -/
def createCategory (st : CatState) (now : Nat) (name : Option String)
    (itemCount : Option Int) (file : Option UploadFile) :
    RouteResult Category × CatState :=
  match uploadStage file with
  | some msg => (RouteResult.uploadRejected msg, st)
  | none =>
    let files1 := filesAfterUpload file st.files
    if falsyField name then
      (RouteResult.error 400 "Category name is required", { st with files := files1 })
    else
      let n := name.getD ""
      match findCategoryByName st.store n with
      | some _ =>
        (RouteResult.error 400 "Category already exists", { st with files := files1 })
      | none =>
        let imageFilename := file.map (fun f => f.storedFilename)
        let ic : Int := jsOrCount itemCount 0
        let newStore := rawInsertCategory st.store n ic imageFilename now
        let newRow := (findCategoryById newStore st.store.nextId).getD
          { id := st.store.nextId, name := n, item_count := ic,
            image := imageFilename, created_at := now, updated_at := now }
        (RouteResult.ok newRow, { store := newStore, files := files1 })

/-- routes/categories.js PUT /:id. The upload stage runs first (an accepted
new file is written to the uploads directory; nothing is ever deleted here).
The handler reads the existing row, merges: `name || category.name` (absent or
empty keeps the old name), `itemCount !== undefined ? itemCount :
category.item_count`, new file's name if uploaded else the old image, and
always sets `updated_at = CURRENT_TIMESTAMP`. -/
def updateCategory (st : CatState) (now : Nat) (id : Nat) (name : Option String)
    (itemCount : Option Int) (file : Option UploadFile) :
    RouteResult Category × CatState :=
  match uploadStage file with
  | some msg => (RouteResult.uploadRejected msg, st)
  | none =>
    let files1 := filesAfterUpload file st.files
    match findCategoryById st.store id with
    | none => (RouteResult.error 404 "Category not found", { st with files := files1 })
    | some category =>
      let imageFilename : Option String := jsOrImage file category.image
      let newName := jsOrName name category.name
      let newCount := jsOrCount itemCount category.item_count
      let newRows := st.store.rows.map (fun c =>
        if c.id == id then
          { c with
            name := newName
            item_count := newCount
            image := imageFilename
            updated_at := now }
        else c)
      let newStore : CatStore := { st.store with rows := newRows }
      let fetched := (findCategoryById newStore id).getD
        { category with
          name := newName
          item_count := newCount
          image := imageFilename
          updated_at := now }
      (RouteResult.ok fetched, { store := newStore, files := files1 })

/-- Result of DELETE /:id. -/
inductive DeleteResult where
  | error (status : Nat) (message : String)
  | success (message : String)
  deriving DecidableEq, Repr

/-- routes/categories.js DELETE /:id, with an explicit flag modelling whether
the `db.run('DELETE FROM categories WHERE id = ?')` statement succeeds (a
rejected run is caught and answered with 500). The handler reads the row; if
it holds an image reference it removes the backing file first, with
`fs.existsSync` guarding `fs.unlinkSync` so a missing file is a no-op; only
then is the row deleted. A failed row deletion does not restore the file. -/
def deleteCategoryWith (dbDeleteOk : Bool) (st : CatState) (id : Nat) :
    DeleteResult × CatState :=
  match findCategoryById st.store id with
  | none => (DeleteResult.error 404 "Category not found", st)
  | some category =>
    let files1 :=
      match category.image with
      | some img => if st.files.contains img then st.files.erase img else st.files
      | none => st.files
    match dbDeleteOk with
    | true =>
      (DeleteResult.success "Category deleted successfully",
       { store := { st.store with rows := st.store.rows.filter (fun c => !(c.id == id)) },
         files := files1 })
    | false => (DeleteResult.error 500 "Server error", { st with files := files1 })

/-- routes/categories.js DELETE /:id in the normal case: the row deletion
statement succeeds. -/
def deleteCategory (st : CatState) (id : Nat) : DeleteResult × CatState :=
  deleteCategoryWith true st id

/-- Fixture: one category row holding an uploaded image reference. -/
def demoCat : Category :=
  { id := 1, name := "Hats", item_count := 4, image := some "img.png",
    created_at := 2, updated_at := 2 }

/-- Fixture state: the one-row table and its backing file on disk. -/
def demoState : CatState :=
  { store := { rows := [demoCat], nextId := 2 }, files := ["img.png"] }

end Revisit

namespace Revisit

/-- Helper: an UPDATE WHERE p statement (map with an if) rewrites the first
row matching p; when the rewrite preserves p, the first match of the updated
table is the rewritten first match of the original. -/
theorem find_map_of_find (p : Category → Bool) (f : Category → Category)
    (hpf : ∀ x, p (f x) = p x) :
    ∀ (rows : List Category) (c : Category),
      rows.find? p = some c →
      (rows.map (fun x => if p x then f x else x)).find? p = some (f c) := by
  intro rows
  induction rows with
  | nil =>
    intro c h
    simp [List.find?] at h
  | cons a rest ih =>
    intro c h
    by_cases ha : p a = true
    · rw [List.find?_cons_of_pos _ ha] at h
      injection h with h
      subst h
      simp only [List.map_cons]
      rw [if_pos ha]
      exact List.find?_cons_of_pos _ (by rw [hpf]; exact ha)
    · rw [List.find?_cons_of_neg _ (by simpa using ha)] at h
      simp only [List.map_cons]
      rw [if_neg (by simpa using ha)]
      rw [List.find?_cons_of_neg _ (by simpa using ha)]
      exact ih c h

/-- C1 counterexample: a request with no authorization header at all (hence
carrying no bearer token) is rejected with the invalid-token message, not the
no-token message, because the header access throws before the `!token` check
is reached. -/
theorem claim1_counterexample :
    authGuard (fun _ => (none : Option Unit)) none =
      GuardResult.reject 401 invalidTokenMessage ∧
    invalidTokenMessage ≠ noTokenMessage := by
  constructor
  · rfl
  · decide

/-- C1 (amended): when the authorization header is absent entirely, the guard
fails with Unauthorized (401) and the invalid-token message; when the header is
present but carries no token after the scheme (missing or empty second field),
it fails with Unauthorized and the no-token message; when a token is present
but fails verification, it fails with Unauthorized and the invalid-token
message; in every one of these cases the protected handler is not invoked. -/
theorem claim1_auth_guard_amended {α β : Type} (verify : String → Option α)
    (handler : α → β) (hdr : Option String) :
    (hdr = none →
      protectedRoute verify handler hdr = Except.error (401, invalidTokenMessage)) ∧
    (∀ h, hdr = some h → (extractToken h).getD "" = "" →
      protectedRoute verify handler hdr = Except.error (401, noTokenMessage)) ∧
    (∀ h t, hdr = some h → extractToken h = some t → t ≠ "" → verify t = none →
      protectedRoute verify handler hdr = Except.error (401, invalidTokenMessage)) := by
  refine ⟨?_, ?_, ?_⟩
  · rintro rfl
    rfl
  · rintro h rfl htok
    cases hx : extractToken h with
    | none => simp [protectedRoute, authGuard, hx]
    | some t =>
      rw [hx] at htok
      simp only [Option.getD] at htok
      subst htok
      simp [protectedRoute, authGuard, hx]
  · rintro h t rfl hx hne hv
    simp [protectedRoute, authGuard, hx, hne, hv]

/-- C1 witness: concrete instantiations of the three rejection cases of
`claim1_auth_guard_amended`. -/
theorem claim1_witness :
    protectedRoute (fun _ => (none : Option Unit)) (fun _ => (7 : Nat)) none =
      Except.error (401, invalidTokenMessage) ∧
    protectedRoute (fun _ => (none : Option Unit)) (fun _ => (7 : Nat)) (some "Bearer") =
      Except.error (401, noTokenMessage) ∧
    protectedRoute (fun _ => (none : Option Unit)) (fun _ => (7 : Nat)) (some "Bearer tok") =
      Except.error (401, invalidTokenMessage) := by
  refine ⟨?_, ?_, ?_⟩
  · exact (claim1_auth_guard_amended (fun _ => (none : Option Unit))
      (fun _ => (7 : Nat)) none).1 rfl
  · exact (claim1_auth_guard_amended (fun _ => (none : Option Unit))
      (fun _ => (7 : Nat)) (some "Bearer")).2.1 "Bearer" rfl (by decide)
  · exact (claim1_auth_guard_amended (fun _ => (none : Option Unit))
      (fun _ => (7 : Nat)) (some "Bearer tok")).2.2 "Bearer tok" "tok" rfl (by decide)
      (by decide) rfl

/-- C2: a login whose email matches no user and a login whose email matches a
user but whose password fails hash verification produce the identical failure
result: status 400 with message Invalid credentials. The response therefore
does not reveal whether the email exists. -/
theorem claim2_login_enumeration_resistance (compare : String → String → Bool)
    (secret : String) (users : List User) (e1 p1 e2 p2 : String) (u : User)
    (he1 : e1 ≠ "") (hp1 : p1 ≠ "") (he2 : e2 ≠ "") (hp2 : p2 ≠ "")
    (h1 : findUserByEmail users e1 = none)
    (h2 : findUserByEmail users e2 = some u)
    (h3 : compare p2 u.password = false) :
    login compare secret users (some e1) (some p1) =
      LoginResult.failure 400 "Invalid credentials" ∧
    login compare secret users (some e2) (some p2) =
      LoginResult.failure 400 "Invalid credentials" := by
  constructor
  · simp [login, falsyField, he1, hp1, h1]
  · simp [login, falsyField, he2, hp2, h2, h3]

/-- C2 witness: one stored user; a wrong password for the stored email and a
lookup of a non-existent email yield the same failure. -/
theorem claim2_witness :
    login (fun p h => p == "pw123" && h == "HASH") "key"
      [{ id := 1, username := "admin", email := "admin@example.com", password := "HASH" }]
      (some "ghost@example.com") (some "anything") =
      LoginResult.failure 400 "Invalid credentials" ∧
    login (fun p h => p == "pw123" && h == "HASH") "key"
      [{ id := 1, username := "admin", email := "admin@example.com", password := "HASH" }]
      (some "admin@example.com") (some "wrong") =
      LoginResult.failure 400 "Invalid credentials" :=
  claim2_login_enumeration_resistance (fun p h => p == "pw123" && h == "HASH") "key"
    [{ id := 1, username := "admin", email := "admin@example.com", password := "HASH" }]
    "ghost@example.com" "anything" "admin@example.com" "wrong"
    { id := 1, username := "admin", email := "admin@example.com", password := "HASH" }
    (by decide) (by decide) (by decide) (by decide) (by decide) (by decide) (by decide)

/-- C7: with all three fields present and non-empty, registration checks the
email collision first: an email match fails with the email-identifying conflict
message; only when the email is free is the username checked, a match failing
with the username-identifying message. In both conflict cases no user row is
inserted (the users table is returned unchanged). -/
theorem claim7_register_conflict_order (hashFn : String → String)
    (users : List User) (nextId : Nat) (un em pw : String)
    (hu : un ≠ "") (he : em ≠ "") (hp : pw ≠ "") :
    (∀ u, findUserByEmail users em = some u →
      register hashFn users nextId (some un) (some em) (some pw) =
        (RegisterResult.failure 400 "Email already in use", users)) ∧
    (findUserByEmail users em = none →
      ∀ u, findUserByUsername users un = some u →
        register hashFn users nextId (some un) (some em) (some pw) =
          (RegisterResult.failure 400 "Username already taken", users)) := by
  constructor
  · intro u hmail
    simp [register, falsyField, hu, he, hp, hmail]
  · intro hmail u huser
    simp [register, falsyField, hu, he, hp, hmail, huser]

/-- C7 witness: with stored user (alice, a@x.com), registering (bob, a@x.com)
reports the email conflict, and registering (alice, b@x.com) reports the
username conflict; the table is unchanged in both cases. -/
theorem claim7_witness :
    register (fun p => p) [{ id := 1, username := "alice", email := "a@x.com", password := "H" }]
      2 (some "bob") (some "a@x.com") (some "pw") =
      (RegisterResult.failure 400 "Email already in use",
       [{ id := 1, username := "alice", email := "a@x.com", password := "H" }]) ∧
    register (fun p => p) [{ id := 1, username := "alice", email := "a@x.com", password := "H" }]
      2 (some "alice") (some "b@x.com") (some "pw") =
      (RegisterResult.failure 400 "Username already taken",
       [{ id := 1, username := "alice", email := "a@x.com", password := "H" }]) :=
  ⟨(claim7_register_conflict_order (fun p => p)
      [{ id := 1, username := "alice", email := "a@x.com", password := "H" }]
      2 "bob" "a@x.com" "pw" (by decide) (by decide) (by decide)).1
      { id := 1, username := "alice", email := "a@x.com", password := "H" } (by decide),
   (claim7_register_conflict_order (fun p => p)
      [{ id := 1, username := "alice", email := "a@x.com", password := "H" }]
      2 "alice" "b@x.com" "pw" (by decide) (by decide) (by decide)).2 (by decide)
      { id := 1, username := "alice", email := "a@x.com", password := "H" } (by decide)⟩

/-- C3: a category-create request carrying an upload that is not image content,
or an image exceeding the 5 MiB ceiling, is rejected by the upload stage
before the handler body runs: the whole request state (categories table and
uploads directory) is returned unchanged, so no row is inserted. -/
theorem claim3_create_upload_rejected (st : CatState) (now : Nat)
    (name : Option String) (itemCount : Option Int) (f : UploadFile) :
    (fileFilterAccepts f = false →
      createCategory st now name itemCount (some f) =
        (RouteResult.uploadRejected "Not an image! Please upload only images.", st)) ∧
    (fileFilterAccepts f = true → fileSizeLimit < f.size →
      createCategory st now name itemCount (some f) =
        (RouteResult.uploadRejected "File too large", st)) := by
  constructor
  · intro hf
    simp [createCategory, uploadStage, hf]
  · intro hf hs
    simp [createCategory, uploadStage, hf, hs]

/-- C3 witness: a text file and an oversized image are both rejected with the
state unchanged. -/
theorem claim3_witness :
    createCategory { store := { rows := [], nextId := 1 }, files := [] } 0
      (some "Shoes") none
      (some { mimetype := "text/plain", size := 10, originalname := "a.txt",
              storedFilename := "image-1-a.txt" }) =
      (RouteResult.uploadRejected "Not an image! Please upload only images.",
       { store := { rows := [], nextId := 1 }, files := [] }) ∧
    createCategory { store := { rows := [], nextId := 1 }, files := [] } 0
      (some "Shoes") none
      (some { mimetype := "image/png", size := 5 * 1024 * 1024 + 1,
              originalname := "b.png", storedFilename := "image-2-b.png" }) =
      (RouteResult.uploadRejected "File too large",
       { store := { rows := [], nextId := 1 }, files := [] }) :=
  ⟨(claim3_create_upload_rejected { store := { rows := [], nextId := 1 }, files := [] } 0
      (some "Shoes") none
      { mimetype := "text/plain", size := 10, originalname := "a.txt",
        storedFilename := "image-1-a.txt" }).1 (by decide),
   (claim3_create_upload_rejected { store := { rows := [], nextId := 1 }, files := [] } 0
      (some "Shoes") none
      { mimetype := "image/png", size := 5 * 1024 * 1024 + 1,
        originalname := "b.png", storedFilename := "image-2-b.png" }).2 (by decide)
      (by decide)⟩

/-- C5 counterexample: creating a category with a supplied negative itemCount
stores the negative value: the claim that no create operation can make a
stored item count negative is false. -/
theorem claim5_counterexample :
    (createCategory { store := { rows := [], nextId := 1 }, files := [] } 3
        (some "Toys") (some (-5)) none).2.store.rows =
      [{ id := 1, name := "Toys", item_count := -5, image := none,
         created_at := 3, updated_at := 3 }] ∧
    (-5 : Int) < 0 := by
  decide

/-- C5 (amended): at creation the item count defaults to 0 when absent, but a
supplied value is stored unchecked (so a negative supplied value is stored as
is; non-negativity is not enforced by create or update). -/
theorem claim5_itemcount_default_unchecked (st : CatState) (now : Nat) (n : String)
    (itemCount : Option Int) (hn : n ≠ "")
    (hdup : findCategoryByName st.store n = none) :
    (createCategory st now (some n) itemCount none).2.store.rows =
      st.store.rows ++
        [{ id := st.store.nextId, name := n, item_count := itemCount.getD 0,
           image := none, created_at := now, updated_at := now }] := by
  cases itemCount with
  | none =>
    simp [createCategory, uploadStage, falsyField, hn, hdup, rawInsertCategory,
      jsOrCount, filesAfterUpload]
  | some k =>
    simp [createCategory, uploadStage, falsyField, hn, hdup, rawInsertCategory,
      jsOrCount, filesAfterUpload]

/-- C5 witness: absent itemCount stores 0; supplied -5 stores -5. -/
theorem claim5_witness :
    (createCategory { store := { rows := [], nextId := 1 }, files := [] } 2
        (some "Hats") none none).2.store.rows =
      [{ id := 1, name := "Hats", item_count := 0, image := none,
         created_at := 2, updated_at := 2 }] ∧
    (createCategory { store := { rows := [], nextId := 1 }, files := [] } 2
        (some "Hats") (some (-7)) none).2.store.rows =
      [{ id := 1, name := "Hats", item_count := -7, image := none,
         created_at := 2, updated_at := 2 }] :=
  ⟨claim5_itemcount_default_unchecked
      { store := { rows := [], nextId := 1 }, files := [] } 2 "Hats" none
      (by decide) (by decide),
   claim5_itemcount_default_unchecked
      { store := { rows := [], nextId := 1 }, files := [] } 2 "Hats" (some (-7))
      (by decide) (by decide)⟩

/-- C6 counterexample: the categories schema declares no uniqueness constraint
on name, and the database layer INSERT accepts a duplicate name: starting from
a store holding a row named Summer, the raw insert of a second Summer row
succeeds and leaves two rows with that name. -/
theorem claim6_counterexample :
    columnIsUnique categoriesTableColumns "name" = false ∧
    (rawInsertCategory
        { rows := [{ id := 1, name := "Summer", item_count := 0, image := none,
                     created_at := 0, updated_at := 0 }], nextId := 2 }
        "Summer" 0 none 1).rows.countP (fun c => c.name == "Summer") = 2 := by
  decide

/-- C6 (amended): category-name uniqueness is enforced only by the create
handler itself, which reads before inserting: a create whose name already has
a row is answered with the conflict response (400, Category already exists)
and inserts nothing; the storage schema itself carries no uniqueness
constraint on name. -/
theorem claim6_duplicate_create_app_level (st : CatState) (now : Nat) (n : String)
    (c : Category) (itemCount : Option Int) (hn : n ≠ "")
    (hdup : findCategoryByName st.store n = some c) :
    createCategory st now (some n) itemCount none =
      (RouteResult.error 400 "Category already exists", st) ∧
    columnIsUnique categoriesTableColumns "name" = false := by
  constructor
  · simp [createCategory, uploadStage, falsyField, hn, hdup, filesAfterUpload]
  · decide

/-- C6 witness: a duplicate create against a one-row store is rejected with the
conflict response and the store is unchanged. -/
theorem claim6_witness :
    createCategory
      { store := { rows := [{ id := 1, name := "Summer", item_count := 0,
                              image := none, created_at := 0, updated_at := 0 }],
                   nextId := 2 }, files := [] } 4 (some "Summer") none none =
      (RouteResult.error 400 "Category already exists",
       { store := { rows := [{ id := 1, name := "Summer", item_count := 0,
                               image := none, created_at := 0, updated_at := 0 }],
                    nextId := 2 }, files := [] }) ∧
    columnIsUnique categoriesTableColumns "name" = false :=
  claim6_duplicate_create_app_level
    { store := { rows := [{ id := 1, name := "Summer", item_count := 0,
                            image := none, created_at := 0, updated_at := 0 }],
                 nextId := 2 }, files := [] } 4 "Summer"
    { id := 1, name := "Summer", item_count := 0, image := none,
      created_at := 0, updated_at := 0 } none (by decide) (by decide)

/-- C4: updating an existing category merges field by field: an unspecified
name, itemCount, or image keeps the previously stored value, a supplied
itemCount is stored, and updated_at is set to the current time on every
successful update; the updated row is what the store then holds for that id
and what the route returns. -/
theorem claim4_update_partial (st : CatState) (now id : Nat) (name : Option String)
    (itemCount : Option Int) (file : Option UploadFile) (c : Category)
    (hup : uploadStage file = none)
    (hfound : findCategoryById st.store id = some c) :
    (updateCategory st now id name itemCount file).1 =
      RouteResult.ok
        { c with
          name := jsOrName name c.name
          item_count := jsOrCount itemCount c.item_count
          image := jsOrImage file c.image
          updated_at := now } ∧
    findCategoryById (updateCategory st now id name itemCount file).2.store id =
      some
        { c with
          name := jsOrName name c.name
          item_count := jsOrCount itemCount c.item_count
          image := jsOrImage file c.image
          updated_at := now } ∧
    (name = none → jsOrName name c.name = c.name) ∧
    (itemCount = none → jsOrCount itemCount c.item_count = c.item_count) ∧
    (file = none → jsOrImage file c.image = c.image) ∧
    (∀ k, itemCount = some k → jsOrCount itemCount c.item_count = k) := by
  have hfind : st.store.rows.find? (fun x => x.id == id) = some c := hfound
  have hm := find_map_of_find (fun x => x.id == id)
    (fun x =>
      { x with
        name := jsOrName name c.name
        item_count := jsOrCount itemCount c.item_count
        image := jsOrImage file c.image
        updated_at := now })
    (fun x => rfl) st.store.rows c hfind
  refine ⟨?_, ?_, ?_, ?_, ?_, ?_⟩
  · simp only [updateCategory, findCategoryById] at hm ⊢
    rw [hup]
    dsimp only
    rw [hfind]
    dsimp only
    rw [hm]
    rfl
  · simp only [updateCategory, findCategoryById] at hm ⊢
    rw [hup]
    dsimp only
    rw [hfind]
    dsimp only
    exact hm
  · rintro rfl
    rfl
  · rintro rfl
    rfl
  · rintro rfl
    rfl
  · rintro k rfl
    rfl

/-- C4 witness: on a one-row store, updating only itemCount leaves name and
image unchanged, stores the new count, and refreshes updated_at. -/
theorem claim4_witness :
    (updateCategory demoState 9 1 none (some 11) none).1 =
      RouteResult.ok { id := 1, name := "Hats", item_count := 11,
                       image := some "img.png", created_at := 2, updated_at := 9 } ∧
    findCategoryById (updateCategory demoState 9 1 none (some 11) none).2.store 1 =
      some { id := 1, name := "Hats", item_count := 11,
             image := some "img.png", created_at := 2, updated_at := 9 } ∧
    jsOrName none "Hats" = "Hats" ∧
    jsOrImage none (some "img.png") = some "img.png" ∧
    jsOrCount (some 11) 4 = 11 := by
  obtain ⟨h1, h2, h3, h4, h5, h6⟩ :=
    claim4_update_partial demoState 9 1 none (some 11) none demoCat rfl (by decide)
  exact ⟨h1, h2, h3 rfl, h5 rfl, h6 11 rfl⟩

/-- C8: deleting an existing category succeeds with the success confirmation,
removes the row (a subsequent lookup of the id resolves to nothing), removes
the backing file when the row held an image reference, and tolerates a file
already missing from disk as a no-op (the uploads directory is untouched and
the delete still succeeds). The uploads directory is modelled duplicate-free,
as a filesystem directory is. -/
theorem claim8_delete_removes_row_and_file (st : CatState) (id : Nat) (c : Category)
    (hnd : st.files.Nodup)
    (hfound : findCategoryById st.store id = some c) :
    (deleteCategory st id).1 = DeleteResult.success "Category deleted successfully" ∧
    findCategoryById (deleteCategory st id).2.store id = none ∧
    (∀ img, c.image = some img → img ∉ (deleteCategory st id).2.files) ∧
    (∀ img, c.image = some img → img ∉ st.files →
      (deleteCategory st id).2.files = st.files) := by
  have hfind : st.store.rows.find? (fun x => x.id == id) = some c := hfound
  refine ⟨?_, ?_, ?_, ?_⟩
  · simp only [deleteCategory, deleteCategoryWith, findCategoryById]
    rw [hfind]
  · simp only [deleteCategory, deleteCategoryWith, findCategoryById]
    rw [hfind]
    dsimp only
    rw [List.find?_eq_none]
    intro x hx
    have hq := (List.mem_filter.mp hx).2
    simp only [Bool.not_eq_true'] at hq
    simp [hq]
  · intro img himg
    simp only [deleteCategory, deleteCategoryWith, findCategoryById]
    rw [hfind]
    dsimp only
    rw [himg]
    dsimp only
    by_cases hc : st.files.contains img = true
    · rw [if_pos hc]
      exact hnd.not_mem_erase
    · rw [if_neg hc]
      intro hmem
      exact hc (List.elem_eq_true_of_mem hmem)
  · intro img himg hnm
    simp only [deleteCategory, deleteCategoryWith, findCategoryById]
    rw [hfind]
    dsimp only
    rw [himg]
    dsimp only
    have hc : st.files.contains img = false := by simpa using hnm
    rw [hc]
    simp

/-- C8 witness: deleting the fixture category removes its row and its backing
file and reports success. -/
theorem claim8_witness :
    (deleteCategory demoState 1).1 =
      DeleteResult.success "Category deleted successfully" ∧
    findCategoryById (deleteCategory demoState 1).2.store 1 = none ∧
    "img.png" ∉ (deleteCategory demoState 1).2.files :=
  ⟨(claim8_delete_removes_row_and_file demoState 1 demoCat (by decide) (by decide)).1,
   (claim8_delete_removes_row_and_file demoState 1 demoCat (by decide) (by decide)).2.1,
   (claim8_delete_removes_row_and_file demoState 1 demoCat (by decide)
      (by decide)).2.2.1 "img.png" rfl⟩

/-- C9: an update supplying a new image on an existing category replaces the
stored reference with the new generated filename, while the uploads directory
only grows: the new file is added and every previously present file, the old
image included, is still there — update never deletes an asset file. -/
theorem claim9_update_keeps_old_file (st : CatState) (now id : Nat)
    (name : Option String) (itemCount : Option Int) (f : UploadFile) (c : Category)
    (hup : uploadStage (some f) = none)
    (hfound : findCategoryById st.store id = some c) :
    (updateCategory st now id name itemCount (some f)).2.files =
      f.storedFilename :: st.files ∧
    (∀ x, x ∈ st.files →
      x ∈ (updateCategory st now id name itemCount (some f)).2.files) ∧
    (findCategoryById (updateCategory st now id name itemCount (some f)).2.store id).map
      (fun r => r.image) = some (some f.storedFilename) := by
  have hfind : st.store.rows.find? (fun x => x.id == id) = some c := hfound
  have hm := find_map_of_find (fun x => x.id == id)
    (fun x =>
      { x with
        name := jsOrName name c.name
        item_count := jsOrCount itemCount c.item_count
        image := jsOrImage (some f) c.image
        updated_at := now })
    (fun x => rfl) st.store.rows c hfind
  have hfiles : (updateCategory st now id name itemCount (some f)).2.files =
      f.storedFilename :: st.files := by
    simp only [updateCategory, findCategoryById]
    rw [hup]
    dsimp only
    rw [hfind]
    rfl
  refine ⟨hfiles, ?_, ?_⟩
  · intro x hx
    rw [hfiles]
    exact List.mem_cons_of_mem _ hx
  · simp only [updateCategory, findCategoryById] at hm ⊢
    rw [hup]
    dsimp only
    rw [hfind]
    dsimp only
    rw [hm]
    rfl

/-- C9 witness: replacing the fixture image stores the new reference and keeps
the old file on disk. -/
theorem claim9_witness :
    (updateCategory demoState 9 1 none none
      (some { mimetype := "image/png", size := 100, originalname := "new.png",
              storedFilename := "image-9-new.png" })).2.files =
      "image-9-new.png" :: ["img.png"] ∧
    "img.png" ∈ (updateCategory demoState 9 1 none none
      (some { mimetype := "image/png", size := 100, originalname := "new.png",
              storedFilename := "image-9-new.png" })).2.files ∧
    (findCategoryById (updateCategory demoState 9 1 none none
      (some { mimetype := "image/png", size := 100, originalname := "new.png",
              storedFilename := "image-9-new.png" })).2.store 1).map
      (fun r => r.image) = some (some "image-9-new.png") :=
  ⟨(claim9_update_keeps_old_file demoState 9 1 none none
      { mimetype := "image/png", size := 100, originalname := "new.png",
        storedFilename := "image-9-new.png" } demoCat (by decide) (by decide)).1,
   (claim9_update_keeps_old_file demoState 9 1 none none
      { mimetype := "image/png", size := 100, originalname := "new.png",
        storedFilename := "image-9-new.png" } demoCat (by decide) (by decide)).2.1
      "img.png" (by decide),
   (claim9_update_keeps_old_file demoState 9 1 none none
      { mimetype := "image/png", size := 100, originalname := "new.png",
        storedFilename := "image-9-new.png" } demoCat (by decide) (by decide)).2.2⟩

/-- C10: in delete, the backing file is removed before the row deletion
statement runs; when that statement fails after the file removal, the request
is answered with the 500 error, the categories table is unchanged — so the
surviving row still holds its image reference — while the file is already gone
from the uploads directory and is not restored. -/
theorem claim10_delete_not_atomic (st : CatState) (id : Nat) (c : Category)
    (img : String) (hnd : st.files.Nodup)
    (hfound : findCategoryById st.store id = some c)
    (himg : c.image = some img) (hmem : img ∈ st.files) :
    (deleteCategoryWith false st id).1 = DeleteResult.error 500 "Server error" ∧
    (deleteCategoryWith false st id).2.store = st.store ∧
    findCategoryById (deleteCategoryWith false st id).2.store id = some c ∧
    img ∉ (deleteCategoryWith false st id).2.files := by
  have hfind : st.store.rows.find? (fun x => x.id == id) = some c := hfound
  have hc : st.files.contains img = true := List.elem_eq_true_of_mem hmem
  refine ⟨?_, ?_, ?_, ?_⟩
  · simp only [deleteCategoryWith, findCategoryById]
    rw [hfind]
  · simp only [deleteCategoryWith, findCategoryById]
    rw [hfind]
  · simp only [deleteCategoryWith, findCategoryById]
    rw [hfind]
    dsimp only
    exact hfind
  · simp only [deleteCategoryWith, findCategoryById]
    rw [hfind]
    dsimp only
    rw [himg]
    dsimp only
    rw [if_pos hc]
    exact hnd.not_mem_erase

/-- C10 witness: a failing row deletion on the fixture leaves the row in the
store with its image reference while the backing file is already removed. -/
theorem claim10_witness :
    (deleteCategoryWith false demoState 1).1 = DeleteResult.error 500 "Server error" ∧
    (deleteCategoryWith false demoState 1).2.store = demoState.store ∧
    findCategoryById (deleteCategoryWith false demoState 1).2.store 1 = some demoCat ∧
    "img.png" ∉ (deleteCategoryWith false demoState 1).2.files :=
  claim10_delete_not_atomic demoState 1 demoCat "img.png" (by decide) (by decide)
    rfl (by decide)

end Revisit
